import Mathlib

/-!
Verification of the mySafeRoute-backend dispatch core.

The TypeScript services are shallowly embedded over exact rational
arithmetic: JavaScript numbers become `ℚ` (or `ℤ` after `Math.round`),
fallible code returns `Option`, and the transcendental floating-point
Haversine primitive (`haversineDistance` in `src/shared/utils`) is
abstracted as a distance-function parameter `hav`; everything downstream
of it (tortuosity, rounding, filtering, sorting, state updates) is
embedded exactly from the source.
-/

namespace MySafeRoute

/-- JavaScript `Math.round`: round half toward positive infinity,
    i.e. `Math.round x = ⌊x + 1/2⌋`. -/
def jsRound (q : ℚ) : ℤ := ⌊q + 1/2⌋

/-- `Coordinates` from `routing.service.ts`: a lat/lng pair. -/
structure Coordinates where
  lat : ℚ
  lng : ℚ
  deriving DecidableEq

/-- `AmbulanceType` enum from the Prisma schema. -/
inductive AmbulanceType
  | RRV
  | BLS
  | ALS
  | CCT
  deriving DecidableEq

/-- `AmbulanceStatus` enum from the Prisma schema. -/
inductive AmbulanceStatus
  | IDLE
  | EN_ROUTE
  | ON_SCENE
  | TRANSPORTING
  deriving DecidableEq

/-- `TYPE_HIERARCHY` from `dispatch.service.ts` lines 58-63:
    RRV (0) < BLS (1) < ALS (2) < CCT (3). -/
def TYPE_HIERARCHY : AmbulanceType → Nat
  | .RRV => 0
  | .BLS => 1
  | .ALS => 2
  | .CCT => 3

/-- An ambulance row as read from the store (`prisma.ambulance`). -/
structure Ambulance where
  id : Nat
  callsign : String
  type : AmbulanceType
  status : AmbulanceStatus
  currentLat : ℚ
  currentLng : ℚ
  hospitalId : Nat
  deriving DecidableEq

/-- `RouteResult` from `routing.service.ts`: GeoJSON LineString geometry
    as a list of `(lng, lat)` pairs, plus rounded distance and ETA. -/
structure RouteResult where
  geometry : List (ℚ × ℚ)
  distanceMeters : ℤ
  etaSeconds : ℤ
  deriving DecidableEq

/-- `TORTUOSITY_FACTOR = 1.4` from `routing.service.ts`. -/
def TORTUOSITY_FACTOR : ℚ := 14 / 10

/-- `AVERAGE_SPEED_KMH = 50` from `routing.service.ts`. -/
def AVERAGE_SPEED_KMH : ℚ := 50

/-- `AVERAGE_SPEED_MS = AVERAGE_SPEED_KMH / 3.6` from `routing.service.ts`. -/
def AVERAGE_SPEED_MS : ℚ := AVERAGE_SPEED_KMH / (36 / 10)

/-- `generateLineString` from `routing.service.ts`: the two-point GeoJSON
    segment, in `[lng, lat]` order. -/
def generateLineString (a b : Coordinates) : List (ℚ × ℚ) :=
  [(a.lng, a.lat), (b.lng, b.lat)]

/-- `calculateMockRoute` from `routing.service.ts`, parameterised by the
    Haversine distance function `hav`. -/
def calculateMockRoute (hav : Coordinates → Coordinates → ℚ)
    (a b : Coordinates) : RouteResult :=
  let straightLineDistance := hav a b
  let roadDistance := straightLineDistance * TORTUOSITY_FACTOR
  { geometry := generateLineString a b
    distanceMeters := jsRound roadDistance
    etaSeconds := jsRound (roadDistance / AVERAGE_SPEED_MS) }

/-- `calculateETA` from `routing.service.ts`. -/
def calculateETA (hav : Coordinates → Coordinates → ℚ)
    (a b : Coordinates) : ℤ :=
  jsRound (hav a b * TORTUOSITY_FACTOR / AVERAGE_SPEED_MS)

/-- `generateDetailedLineString` from `routing.service.ts`: `numPoints + 1`
    evenly interpolated `(lng, lat)` pairs. -/
def generateDetailedLineString (a b : Coordinates) (numPoints : Nat) :
    List (ℚ × ℚ) :=
  (List.range (numPoints + 1)).map (fun i =>
    let t : ℚ := (i : ℚ) / (numPoints : ℚ)
    (a.lng + (b.lng - a.lng) * t, a.lat + (b.lat - a.lat) * t))

/-- `AmbulanceCandidate` from `dispatch.service.ts`. -/
structure AmbulanceCandidate where
  id : Nat
  callsign : String
  type : AmbulanceType
  lat : ℚ
  lng : ℚ
  hospitalId : Nat
  etaSeconds : ℤ
  distanceMeters : ℤ
  deriving DecidableEq

/-- `filterByCapability` from `dispatch.service.ts` lines 202-226: no
    required type means every ambulance passes; otherwise keep those at or
    above the required hierarchy level. -/
def filterByCapability (ambulances : List Ambulance)
    (requiredType : Option AmbulanceType) : List Ambulance :=
  match requiredType with
  | none => ambulances
  | some t =>
      ambulances.filter (fun a =>
        decide (TYPE_HIERARCHY t ≤ TYPE_HIERARCHY a.type))

/-- The candidate-building step of `getCandidates` / `dispatchToIncident`:
    one `calculateMockRoute` call per ambulance. -/
def toCandidate (hav : Coordinates → Coordinates → ℚ)
    (incidentLocation : Coordinates) (a : Ambulance) : AmbulanceCandidate :=
  let route := calculateMockRoute hav ⟨a.currentLat, a.currentLng⟩
    incidentLocation
  { id := a.id
    callsign := a.callsign
    type := a.type
    lat := a.currentLat
    lng := a.currentLng
    hospitalId := a.hospitalId
    etaSeconds := route.etaSeconds
    distanceMeters := route.distanceMeters }

/-- The comparator of `candidates.sort((a, b) => a.etaSeconds - b.etaSeconds)`
    in `dispatch.service.ts` lines 145 and 297: ETA only. -/
def candEtaLe (a b : AmbulanceCandidate) : Prop :=
  a.etaSeconds ≤ b.etaSeconds

instance : DecidableRel candEtaLe := fun a b =>
  inferInstanceAs (Decidable (a.etaSeconds ≤ b.etaSeconds))

instance : IsTotal AmbulanceCandidate candEtaLe :=
  ⟨fun a b => Int.le_total a.etaSeconds b.etaSeconds⟩

instance : IsTrans AmbulanceCandidate candEtaLe :=
  ⟨fun _ _ _ hab hbc => le_trans hab hbc⟩

/-- `getCandidates` from `dispatch.service.ts` lines 261-300, with the
    store's `findMany({ where: { status: IDLE } })` embedded as a filter
    over the fleet snapshot.  `dispatchToIncident` (lines 85-153) builds
    its ranked candidate list by the same filter / map / sort pipeline.
    JavaScript `Array.prototype.sort` is a stable sort, so on every
    comparator it agrees with the stable insertion sort used here. -/
def getCandidates (hav : Coordinates → Coordinates → ℚ)
    (fleet : List Ambulance) (lat lng : ℚ)
    (requiredType : Option AmbulanceType) : List AmbulanceCandidate :=
  let incidentLocation : Coordinates := ⟨lat, lng⟩
  let idleAmbulances := fleet.filter (fun a => decide (a.status = .IDLE))
  let validAmbulances := filterByCapability idleAmbulances requiredType
  let candidates := validAmbulances.map (toCandidate hav incidentLocation)
  List.insertionSort candEtaLe candidates

/-- The ordering the claim asserts for the candidate list, written from the
    spec's words: ascending ETA, ties by ascending distance, remaining ties
    by ascending ambulance identifier. -/
def specCandidateOrder (a b : AmbulanceCandidate) : Prop :=
  a.etaSeconds < b.etaSeconds ∨
    (a.etaSeconds = b.etaSeconds ∧
      (a.distanceMeters < b.distanceMeters ∨
        (a.distanceMeters = b.distanceMeters ∧ a.id ≤ b.id)))

instance : DecidableRel specCandidateOrder := fun _a _b =>
  inferInstanceAs (Decidable (_ ∨ _ ∧ (_ ∨ _ ∧ _)))

/-- Sortedness in the sense of the claim. -/
def specSortedCandidates (l : List AmbulanceCandidate) : Prop :=
  l.Pairwise specCandidateOrder

instance (l : List AmbulanceCandidate) : Decidable (specSortedCandidates l) :=
  inferInstanceAs (Decidable (l.Pairwise specCandidateOrder))

/-- A distance function realising an ETA tie with distinct rounded
    distances: ETA rounds road distance into 14.4 m buckets while distance
    rounds to the metre, so road distances 144.2 m and 140 m share
    ETA 10 s. -/
def havTie : Coordinates → Coordinates → ℚ :=
  fun a _ => if a.lat = 1 then 103 else 100

/-- Fleet snapshot for the tie counterexample: two IDLE ambulances, the
    farther one (id 1) listed first. -/
def fleetTie : List Ambulance :=
  [{ id := 1, callsign := "A1", type := .BLS, status := .IDLE
     currentLat := 1, currentLng := 0, hospitalId := 1 },
   { id := 2, callsign := "A2", type := .BLS, status := .IDLE
     currentLat := 2, currentLng := 0, hospitalId := 1 }]

/-! ### Destination service (`destination.service.ts`) -/

/-- `Severity` from `destination.service.ts`. -/
inductive Severity
  | HIGH
  | LOW
  deriving DecidableEq

/-- A hospital row as read from the store (`prisma.hospital`). -/
structure Hospital where
  id : Nat
  name : String
  lat : ℚ
  lng : ℚ
  capabilities : List String
  deriving DecidableEq

/-- `HospitalResult` from `destination.service.ts`. -/
structure HospitalResult where
  id : Nat
  name : String
  lat : ℚ
  lng : ℚ
  capabilities : List String
  distanceMeters : ℤ
  etaSeconds : ℤ
  deriving DecidableEq

/-- `TRIAGE_CAPABILITY_MAP` from `destination.service.ts` lines 49-56; a
    triage type missing from the record contributes nothing. -/
def TRIAGE_CAPABILITY_MAP (t : String) : List String :=
  if t = "STEMI" then ["PCI"]
  else if t = "Stroke" then ["STROKE", "NEURO", "CT"]
  else if t = "Trauma" then ["TRAUMA"]
  else if t = "Burns" then ["BURNS"]
  else if t = "Pediatric" then ["PEDIATRIC"]
  else []

/-- `AMBULANCE_TYPE_CAPABILITY_MAP` from `destination.service.ts`
    lines 39-44. -/
def AMBULANCE_TYPE_CAPABILITY_MAP : AmbulanceType → List String
  | .CCT => ["PCI", "TRAUMA", "NEURO", "BURNS"]
  | .ALS => ["PCI", "TRAUMA", "STROKE"]
  | .BLS => []
  | .RRV => []

/-- `getRequiredCapabilities` from `destination.service.ts` lines 242-266:
    triage capabilities only for HIGH severity, type capabilities only for
    ALS/CCT, collected through a `Set` (embedded as `dedup`). -/
def getRequiredCapabilities (severity : Severity)
    (requiredType : Option AmbulanceType) (triageType : Option String) :
    List String :=
  let fromTriage : List String :=
    if severity = .HIGH then
      match triageType with
      | some t => TRIAGE_CAPABILITY_MAP t
      | none => []
    else []
  let fromType : List String :=
    match requiredType with
    | some t =>
        if t = .ALS ∨ t = .CCT then AMBULANCE_TYPE_CAPABILITY_MAP t else []
    | none => []
  (fromTriage ++ fromType).dedup

/-- `hasRequiredCapabilities` from `destination.service.ts` lines 271-282:
    at least one required capability, compared case-insensitively. -/
def hasRequiredCapabilities (hospitalCapabilities requiredCapabilities :
    List String) : Bool :=
  if requiredCapabilities.isEmpty then true
  else
    let hospitalCapsUpper := hospitalCapabilities.map String.toUpper
    requiredCapabilities.any (fun req => hospitalCapsUpper.contains
      req.toUpper)

/-- The per-hospital route / distance / ETA step of `findBestHospital`. -/
def toHospitalResult (hav : Coordinates → Coordinates → ℚ)
    (incidentLocation : Coordinates) (h : Hospital) : HospitalResult :=
  let route := calculateMockRoute hav incidentLocation ⟨h.lat, h.lng⟩
  { id := h.id
    name := h.name
    lat := h.lat
    lng := h.lng
    capabilities := h.capabilities
    distanceMeters := route.distanceMeters
    etaSeconds := route.etaSeconds }

/-- The comparator of `hospitalResults.sort((a, b) =>
    a.distanceMeters - b.distanceMeters)` in `destination.service.ts`. -/
def hospDistLe (a b : HospitalResult) : Prop :=
  a.distanceMeters ≤ b.distanceMeters

instance : DecidableRel hospDistLe := fun a b =>
  inferInstanceAs (Decidable (a.distanceMeters ≤ b.distanceMeters))

instance : IsTotal HospitalResult hospDistLe :=
  ⟨fun a b => Int.le_total a.distanceMeters b.distanceMeters⟩

instance : IsTrans HospitalResult hospDistLe :=
  ⟨fun _ _ _ hab hbc => le_trans hab hbc⟩

/-- The capability-filtering step of `findBestHospital`
    (`destination.service.ts` lines 114-136): a non-empty
    required-capability set filters the hospitals, falling back to the
    full set when the filter comes back empty. -/
def validHospitalsFor (hospitals : List Hospital)
    (requiredCapabilities : List String) : List Hospital :=
  if 0 < requiredCapabilities.length then
    let filtered := hospitals.filter (fun h =>
      hasRequiredCapabilities h.capabilities requiredCapabilities)
    if filtered.isEmpty then hospitals else filtered
  else hospitals

/-- `findBestHospital` from `destination.service.ts` lines 71-174, with the
    store's `hospital.findMany()` passed in as the hospital set: empty set
    returns null; otherwise the capability-filtered (or fallen-back)
    hospitals are ranked by ascending distance and the head is returned. -/
def findBestHospital (hav : Coordinates → Coordinates → ℚ)
    (hospitals : List Hospital) (incidentLat incidentLng : ℚ)
    (severity : Severity) (requiredType : Option AmbulanceType)
    (triageType : Option String) : Option HospitalResult :=
  if hospitals.isEmpty then none
  else
    let incidentLocation : Coordinates := ⟨incidentLat, incidentLng⟩
    let requiredCapabilities :=
      getRequiredCapabilities severity requiredType triageType
    let validHospitals := validHospitalsFor hospitals requiredCapabilities
    let hospitalResults := List.insertionSort hospDistLe
      (validHospitals.map (toHospitalResult hav incidentLocation))
    hospitalResults.head?

/-! ### Polyline interpolation (`getPositionAlongPolyline` in
    `routing.service.ts`), over `(lng, lat)` pairs.  The shared-utils
    Haversine takes its four arguments as `lat1 lng1 lat2 lng2`, so it is
    abstracted here as a four-argument distance function. -/

/-- `Math.max(0, Math.min(1, progress))`. -/
def clamp01 (p : ℚ) : ℚ := max 0 (min 1 p)

/-- The `segmentDistances` loop paired with each segment's endpoints:
    entry `(hav4 prev.lat prev.lng curr.lat curr.lng, prev, curr)` for each
    consecutive pair of the polyline. -/
def segmentsWith (hav4 : ℚ → ℚ → ℚ → ℚ → ℚ) :
    List (ℚ × ℚ) → List (ℚ × (ℚ × ℚ) × (ℚ × ℚ))
  | a :: b :: rest =>
      (hav4 a.2 a.1 b.2 b.1, a, b) :: segmentsWith hav4 (b :: rest)
  | _ => []

/-- The walk loop of `getPositionAlongPolyline` lines 495-517: find the
    segment containing the target cumulative distance and interpolate
    within it; `none` means the loop fell through (the code then returns
    the last point). -/
def walkSegments (targetDistance : ℚ) :
    ℚ → List (ℚ × (ℚ × ℚ) × (ℚ × ℚ)) → Option Coordinates
  | _, [] => none
  | accumulatedDistance, (segmentLength, a, b) :: rest =>
      if targetDistance ≤ accumulatedDistance + segmentLength then
        let distanceIntoSegment := targetDistance - accumulatedDistance
        let segmentProgress :=
          if 0 < segmentLength then distanceIntoSegment / segmentLength
          else 0
        some { lat := a.2 + (b.2 - a.2) * segmentProgress
               lng := a.1 + (b.1 - a.1) * segmentProgress }
      else walkSegments targetDistance (accumulatedDistance + segmentLength)
        rest

/-- `getPositionAlongPolyline` from `routing.service.ts` lines 453-521:
    throws on an empty polyline (embedded as `none`), returns the single
    point for one-point polylines, the first point at progress 0 or zero
    total length, the last point at progress ≥ 1, and otherwise
    interpolates in the segment containing `totalDistance * progress`. -/
def getPositionAlongPolyline (hav4 : ℚ → ℚ → ℚ → ℚ → ℚ)
    (coordinates : List (ℚ × ℚ)) (progress : ℚ) : Option Coordinates :=
  let clampedProgress := clamp01 progress
  match coordinates with
  | [] => none
  | firstCoord :: rest =>
    let lastCoord := (firstCoord :: rest).getLast (List.cons_ne_nil _ _)
    if rest.isEmpty then some { lng := firstCoord.1, lat := firstCoord.2 }
    else
      let segments := segmentsWith hav4 (firstCoord :: rest)
      let totalDistance := (segments.map (fun s => s.1)).sum
      if totalDistance = 0 ∨ clampedProgress = 0 then
        some { lng := firstCoord.1, lat := firstCoord.2 }
      else if 1 ≤ clampedProgress then
        some { lng := lastCoord.1, lat := lastCoord.2 }
      else
        let targetDistance := totalDistance * clampedProgress
        match walkSegments targetDistance 0 segments with
        | some c => some c
        | none => some { lng := lastCoord.1, lat := lastCoord.2 }

/-! ### Hazard service (`modules/routing/HazardService.ts` and
    `shared/utils`) -/

/-- Hazard bounding rectangle from the shared types. -/
structure HazardBounds where
  minLat : ℚ
  maxLat : ℚ
  minLng : ℚ
  maxLng : ℚ
  deriving DecidableEq

/-- A hazard as stored in the in-memory database: only the fields the
    hazard service reads. -/
structure Hazard where
  id : String
  bounds : HazardBounds
  active : Bool
  deriving DecidableEq

/-- `HAZARD_PENALTY_SECONDS = 600` from `HazardService.ts`. -/
def HAZARD_PENALTY_SECONDS : ℤ := 600

/-- `isPointInBounds` from `shared/utils`. -/
def isPointInBounds (lat lng : ℚ) (bounds : HazardBounds) : Bool :=
  decide (bounds.minLat ≤ lat) && decide (lat ≤ bounds.maxLat) &&
    decide (bounds.minLng ≤ lng) && decide (lng ≤ bounds.maxLng)

/-- `routeIntersectsBounds` from `shared/utils`: some `(lng, lat)`
    coordinate of the route lies in the rectangle. -/
def routeIntersectsBounds (coordinates : List (ℚ × ℚ))
    (bounds : HazardBounds) : Bool :=
  coordinates.any (fun c => isPointInBounds c.2 c.1 bounds)

/-- `db.getActiveHazards()`: hazards with the active flag set. -/
def getActiveHazards (hazards : List Hazard) : List Hazard :=
  hazards.filter (fun h => h.active)

/-- Result of `checkRouteHazards`. -/
structure HazardCheckResult where
  intersectsHazard : Bool
  hazards : List Hazard
  totalPenalty : ℤ
  deriving DecidableEq

/-- `checkRouteHazards` from `HazardService.ts` lines 16-43, with the
    hazard store passed in. -/
def checkRouteHazards (allHazards : List Hazard) (route : RouteResult) :
    HazardCheckResult :=
  let activeHazards := getActiveHazards allHazards
  let intersectingHazards := activeHazards.filter (fun hz =>
    routeIntersectsBounds route.geometry hz.bounds)
  { intersectsHazard := 0 < intersectingHazards.length
    hazards := intersectingHazards
    totalPenalty := (intersectingHazards.length : ℤ) *
      HAZARD_PENALTY_SECONDS }

/-- The return type of `applyHazardPenalties`: the route fields plus the
    penalty metadata. -/
structure PenalizedRoute where
  geometry : List (ℚ × ℚ)
  distanceMeters : ℤ
  etaSeconds : ℤ
  hazardPenalty : ℤ
  intersectingHazards : List Hazard
  deriving DecidableEq

/-- `applyHazardPenalties` from `HazardService.ts` lines 48-60. -/
def applyHazardPenalties (allHazards : List Hazard) (route : RouteResult) :
    PenalizedRoute :=
  let hazardCheck := checkRouteHazards allHazards route
  { geometry := route.geometry
    distanceMeters := route.distanceMeters
    etaSeconds := route.etaSeconds + hazardCheck.totalPenalty
    hazardPenalty := hazardCheck.totalPenalty
    intersectingHazards := hazardCheck.hazards }

/-! ### Simulation service (`simulation.service.ts`)

The service's mutable state — the `activeSimulations` map and the
ambulance rows it writes through the store — is modelled as an explicit
`SimState`; broadcasts and timer operations become an explicit event
list.  The routing provider's asynchronous `getRoute` (which may throw)
enters as an `Option RouteResult` parameter. -/

/-- `SimulationPhase` from `simulation.service.ts`. -/
inductive SimulationPhase
  | OUTBOUND
  | ON_SCENE
  | DECISION
  | INBOUND
  | COMPLETE
  deriving DecidableEq

/-- `config.outboundRoute` from `simulation.service.ts`. -/
structure OutboundRouteInput where
  coordinates : List (ℚ × ℚ)
  etaSeconds : ℤ
  distanceMeters : ℤ
  deriving DecidableEq

/-- `SimulationConfig` from `simulation.service.ts`. -/
structure SimulationConfig where
  ambulanceId : Nat
  incidentId : String
  ambulanceLocation : Coordinates
  incidentLocation : Coordinates
  severity : Severity
  ambulanceType : AmbulanceType
  triageType : Option String
  outboundRoute : Option OutboundRouteInput
  deriving DecidableEq

/-- `ActiveSimulation` from `simulation.service.ts`; `timerRunning` models
    `intervalId !== null`. -/
structure ActiveSimulation where
  config : SimulationConfig
  phase : SimulationPhase
  progress : ℚ
  timerRunning : Bool
  routeCoordinates : Option (List (ℚ × ℚ))
  phaseEtaSeconds : Option ℚ
  deriving DecidableEq

/-- The service's observable state: the keyed map of active simulations
    plus the ambulance table it writes through the store. -/
structure SimState where
  activeSimulations : List (String × ActiveSimulation)
  ambulances : List Ambulance
  deriving DecidableEq

/-- Externally visible actions of the service: store writes are reflected
    in `SimState.ambulances`; broadcasts and timer operations are recorded
    as events. -/
inductive SimEvent
  | ambulanceUpdate (ambulanceId : Nat) (lat lng : ℚ) (status : String)
      (phase : SimulationPhase)
  | simulationCancelled (incidentId : String) (ambulanceId : Nat)
  | timerStarted (incidentId : String)
  | timerCleared (incidentId : String)
  deriving DecidableEq

/-- `Map.get` on the keyed simulation map. -/
def mapLookup (m : List (String × ActiveSimulation)) (k : String) :
    Option ActiveSimulation :=
  (m.find? (fun e => decide (e.1 = k))).map (fun e => e.2)

/-- `Map.delete` on the keyed simulation map. -/
def mapDelete (m : List (String × ActiveSimulation)) (k : String) :
    List (String × ActiveSimulation) :=
  m.filter (fun e => decide (e.1 ≠ k))

/-- In-place mutation of the simulation object held in the map. -/
def mapUpdate (m : List (String × ActiveSimulation)) (k : String)
    (v : ActiveSimulation) : List (String × ActiveSimulation) :=
  m.map (fun e => if e.1 = k then (k, v) else e)

/-- Number of map entries under a key. -/
def countKey (m : List (String × ActiveSimulation)) (k : String) : Nat :=
  (m.filter (fun e => decide (e.1 = k))).length

/-- `prisma.ambulance.update` with a `{ status }` payload. -/
def updateAmbulanceStatus (ambulances : List Ambulance) (ambulanceId : Nat)
    (status : AmbulanceStatus) : List Ambulance :=
  ambulances.map (fun a =>
    if a.id = ambulanceId then { a with status := status } else a)

/-- `prisma.ambulance.update` with a `{ currentLat, currentLng }`
    payload. -/
def updateAmbulancePosition (ambulances : List Ambulance)
    (ambulanceId : Nat) (lat lng : ℚ) : List Ambulance :=
  ambulances.map (fun a =>
    if a.id = ambulanceId then { a with currentLat := lat, currentLng := lng }
    else a)

/-- `MIN_PHASE_DURATION_SECONDS = 5` from `simulation.service.ts`. -/
def MIN_PHASE_DURATION_SECONDS : ℚ := 5

/-- The route-selection step of `startOutboundPhase` lines 123-164: use the
    pre-calculated route when it has more than one point, otherwise the
    provider result, otherwise the straight-line fallback. -/
def outboundRouteData (hav : Coordinates → Coordinates → ℚ)
    (fetched : Option RouteResult) (config : SimulationConfig) :
    List (ℚ × ℚ) × ℤ :=
  let fetchOrFallback : List (ℚ × ℚ) × ℤ :=
    match fetched with
    | some route => (route.geometry, route.etaSeconds)
    | none =>
        (generateDetailedLineString config.ambulanceLocation
          config.incidentLocation 20,
         calculateETA hav config.ambulanceLocation config.incidentLocation)
  match config.outboundRoute with
  | some r =>
      if 1 < r.coordinates.length then (r.coordinates, r.etaSeconds)
      else fetchOrFallback
  | none => fetchOrFallback

/-- `startOutboundPhase` entry from `simulation.service.ts` lines 114-200:
    store the route and the floored phase duration on the simulation,
    write EN_ROUTE to the ambulance row, broadcast the initial status with
    the route, and start the interval timer. -/
def startOutboundPhase (hav : Coordinates → Coordinates → ℚ)
    (fetched : Option RouteResult) (st : SimState)
    (simulation : ActiveSimulation) : SimState × List SimEvent :=
  let config := simulation.config
  let routeData := outboundRouteData hav fetched config
  let simulation' : ActiveSimulation :=
    { simulation with
      phase := .OUTBOUND
      progress := 0
      routeCoordinates := some routeData.1
      phaseEtaSeconds :=
        some (max (routeData.2 : ℚ) MIN_PHASE_DURATION_SECONDS)
      timerRunning := true }
  ({ activeSimulations :=
       mapUpdate st.activeSimulations config.incidentId simulation'
     ambulances :=
       updateAmbulanceStatus st.ambulances config.ambulanceId .EN_ROUTE },
   [SimEvent.ambulanceUpdate config.ambulanceId config.ambulanceLocation.lat
      config.ambulanceLocation.lng "EN_ROUTE" .OUTBOUND,
    SimEvent.timerStarted config.incidentId])

/-- `startLifecycle` from `simulation.service.ts` lines 84-108: a second
    start for an incident id already in the map returns at once with no
    state change and no events; otherwise the state is registered and the
    outbound phase begins. -/
def startLifecycle (hav : Coordinates → Coordinates → ℚ)
    (fetched : Option RouteResult) (st : SimState)
    (config : SimulationConfig) : SimState × List SimEvent :=
  match mapLookup st.activeSimulations config.incidentId with
  | some _ => (st, [])
  | none =>
      let simulation : ActiveSimulation :=
        { config := config
          phase := .OUTBOUND
          progress := 0
          timerRunning := false
          routeCoordinates := none
          phaseEtaSeconds := none }
      let st1 : SimState :=
        { st with activeSimulations :=
            st.activeSimulations ++ [(config.incidentId, simulation)] }
      startOutboundPhase hav fetched st1 simulation

/-- `cancelSimulation` from `simulation.service.ts` lines 560-586: unknown
    incident id returns false with no changes; otherwise the interval is
    cleared, the ambulance row's status (and nothing else) is reset to
    IDLE, the state is removed from the map, and a cancellation event is
    broadcast. -/
def cancelSimulation (st : SimState) (incidentId : String) :
    SimState × Bool × List SimEvent :=
  match mapLookup st.activeSimulations incidentId with
  | none => (st, false, [])
  | some simulation =>
      let clearEvents : List SimEvent :=
        if simulation.timerRunning then [SimEvent.timerCleared incidentId]
        else []
      ({ activeSimulations := mapDelete st.activeSimulations incidentId
         ambulances := updateAmbulanceStatus st.ambulances
           simulation.config.ambulanceId .IDLE },
       true,
       clearEvents ++
         [SimEvent.simulationCancelled incidentId
            simulation.config.ambulanceId])

/-- The body of the outbound `setInterval` callback, `simulation.service.ts`
    lines 200-235: advance the step, interpolate the position along the
    captured route, write it to the ambulance row and broadcast it.  The
    callback operates on the closure-captured `simulation` object and
    never consults `activeSimulations`.  `none` models the thrown error
    when the route is missing or empty; the returned flag records
    `currentStep >= totalSteps`, after which the interval is cleared and
    the on-scene phase entered. -/
def outboundTick (hav4 : ℚ → ℚ → ℚ → ℚ → ℚ) (st : SimState)
    (simulation : ActiveSimulation) (currentStep totalSteps : Nat) :
    Option (SimState × List SimEvent × Bool) :=
  let step := currentStep + 1
  let progress := min ((step : ℚ) / (totalSteps : ℚ)) 1
  match simulation.routeCoordinates with
  | none => none
  | some coords =>
      match getPositionAlongPolyline hav4 coords progress with
      | none => none
      | some currentPosition =>
          let ambulances' := updateAmbulancePosition st.ambulances
            simulation.config.ambulanceId currentPosition.lat
            currentPosition.lng
          some
            ({ st with ambulances := ambulances' },
             [SimEvent.ambulanceUpdate simulation.config.ambulanceId
                currentPosition.lat currentPosition.lng "EN_ROUTE"
                simulation.phase],
             decide (totalSteps ≤ step))

/-! ### Routing provider singleton (`modules/routing/RoutingAdapter.ts`
    lines 536-571) -/

/-- `RoutingProviderType` from `RoutingAdapter.ts`. -/
inductive RoutingProviderType
  | google
  | openrouteservice
  | tomtom
  deriving DecidableEq

/-- Which adapter class was constructed. -/
inductive ProviderInstance
  | TomTomRoutingAdapter
  | GoogleRoutesAdapter
  | OpenRouteServiceAdapter
  deriving DecidableEq

/-- The constructor choice inside `getRoutingProvider`'s first-call
    branch. -/
def constructProvider : RoutingProviderType → ProviderInstance
  | .tomtom => .TomTomRoutingAdapter
  | .google => .GoogleRoutesAdapter
  | .openrouteservice => .OpenRouteServiceAdapter

/-- The default value of `getRoutingProvider`'s parameter. -/
def defaultProviderChoice : RoutingProviderType := .tomtom

/-- `getRoutingProvider` from `RoutingAdapter.ts` lines 541-560, over the
    module-level `routingProvider` cell: construct and memoize on first
    call, return the cached instance (ignoring the argument) afterwards.
    Returns the provider together with the new cell contents. -/
def getRoutingProvider (cache : Option ProviderInstance)
    (provider : RoutingProviderType) :
    ProviderInstance × Option ProviderInstance :=
  match cache with
  | some p => (p, some p)
  | none =>
      let p := constructProvider provider
      (p, some p)

/-- `resetRoutingProvider` from `RoutingAdapter.ts` lines 569-571. -/
def resetRoutingProvider (_cache : Option ProviderInstance) :
    Option ProviderInstance :=
  none

/-- The two candidates built from `fleetTie`: equal ETA (10 s), distinct
    rounded distances, listed in fleet order. -/
def cTie1 : AmbulanceCandidate := ⟨1, "A1", .BLS, 1, 0, 1, 10, 144⟩

/-- Second candidate of the tie fixture: same ETA, smaller distance. -/
def cTie2 : AmbulanceCandidate := ⟨2, "A2", .BLS, 2, 0, 1, 10, 140⟩

/-- The triage-to-capability mapping as the claim states it, written from
    the spec's words: STEMI to PCI, Stroke to STROKE/NEURO/CT, Trauma to
    TRAUMA, Burns to BURNS, Pediatric to PEDIATRIC, General (and anything
    unmapped) to nothing. -/
def claimTriageCaps (t : String) : List String :=
  if t = "STEMI" then ["PCI"]
  else if t = "Stroke" then ["STROKE", "NEURO", "CT"]
  else if t = "Trauma" then ["TRAUMA"]
  else if t = "Burns" then ["BURNS"]
  else if t = "Pediatric" then ["PEDIATRIC"]
  else []

/-- The tier-to-capability contribution as the claim states it: the
    ALS/CCT rows of `AMBULANCE_TYPE_CAPABILITY_MAP`, with BLS and RRV
    contributing nothing. -/
def claimTierCaps : AmbulanceType → List String
  | .ALS => AMBULANCE_TYPE_CAPABILITY_MAP .ALS
  | .CCT => AMBULANCE_TYPE_CAPABILITY_MAP .CCT
  | .BLS => []
  | .RRV => []

/-- A trivially computable stand-in distance function for concrete
    fixtures that never inspect distances. -/
def havZero : Coordinates → Coordinates → ℚ := fun _ _ => 0

/-- One-hospital fixture whose empty capability set matches no
    requirement. -/
def hospNoCaps : List Hospital := [⟨1, "H1", 0, 0, []⟩]

/-- A concrete nonnegative, definite stand-in for the four-argument
    Haversine of `shared/utils`, used by witnesses. -/
def havAbs : ℚ → ℚ → ℚ → ℚ → ℚ := fun a b c d => |a - c| + |b - d|

/-- Concrete simulation config for incident "inc1" and ambulance 7. -/
def configW : SimulationConfig :=
  { ambulanceId := 7, incidentId := "inc1"
    ambulanceLocation := ⟨0, 0⟩, incidentLocation := ⟨1, 1⟩
    severity := .LOW, ambulanceType := .BLS, triageType := none
    outboundRoute := some ⟨[(0, 0), (1, 1)], 30, 100⟩ }

/-- Concrete ambulance row for the simulation fixtures. -/
def ambW : Ambulance := ⟨7, "A7", .BLS, .IDLE, 5, 5, 1⟩

/-- Simulation-service state with no active lifecycle. -/
def stEmptyW : SimState := { activeSimulations := [], ambulances := [ambW] }

/-- An in-flight OUTBOUND simulation for "inc1" with a running timer and a
    captured two-point route. -/
def simW : ActiveSimulation :=
  { config := configW, phase := .OUTBOUND, progress := 0
    timerRunning := true, routeCoordinates := some [(0, 0), (1, 0)]
    phaseEtaSeconds := some 30 }

/-- Simulation-service state with "inc1" active. -/
def stActiveW : SimState :=
  { activeSimulations := [("inc1", simW)], ambulances := [ambW] }

/-! ## Theorems -/

theorem getCandidates_tie_eval :
    getCandidates havTie fleetTie 0 0 none = [cTie1, cTie2] := by
  norm_num [getCandidates, fleetTie, havTie, filterByCapability, toCandidate,
    calculateMockRoute, generateLineString, jsRound, TORTUOSITY_FACTOR,
    AVERAGE_SPEED_MS, AVERAGE_SPEED_KMH, List.insertionSort,
    List.orderedInsert, candEtaLe, cTie1, cTie2]

theorem getCandidates_tie_eval_BLS :
    getCandidates havTie fleetTie 0 0 (some .BLS) = [cTie1, cTie2] := by
  norm_num [getCandidates, fleetTie, havTie, filterByCapability, toCandidate,
    calculateMockRoute, generateLineString, jsRound, TORTUOSITY_FACTOR,
    AVERAGE_SPEED_MS, AVERAGE_SPEED_KMH, List.insertionSort,
    List.orderedInsert, candEtaLe, TYPE_HIERARCHY, cTie1, cTie2]

/-- C1 (counterexample): the candidate sort compares `etaSeconds` only, so
    on a fleet whose two IDLE ambulances share the rounded ETA of 10 s but
    have rounded distances 144 m and 140 m, the stable sort keeps the
    farther ambulance first, violating the claimed distance tie-break. -/
theorem getCandidates_tie_ignores_distance :
    ¬ specSortedCandidates (getCandidates havTie fleetTie 0 0 none) := by
  rw [getCandidates_tie_eval]
  decide

/-- C1 (amended): for every distance function, fleet snapshot, incident
    location and required type, the candidate list returned by
    `getCandidates` is sorted by non-decreasing `etaSeconds`; no distance
    or identifier tie-break is applied, equal-ETA candidates staying in
    fleet-snapshot order under the stable sort. -/
theorem getCandidates_sorted_by_nondecreasing_eta
    (hav : Coordinates → Coordinates → ℚ) (fleet : List Ambulance)
    (lat lng : ℚ) (requiredType : Option AmbulanceType) :
    (getCandidates hav fleet lat lng requiredType).Pairwise
      (fun a b => a.etaSeconds ≤ b.etaSeconds) := by
  unfold getCandidates
  exact List.sorted_insertionSort candEtaLe _

/-- C2: a candidate returned for required tier `T` never has a tier
    strictly below `T` under `TYPE_HIERARCHY`, and with no required tier
    every IDLE ambulance of the snapshot appears among the candidates. -/
theorem getCandidates_capability_floor
    (hav : Coordinates → Coordinates → ℚ) (fleet : List Ambulance)
    (lat lng : ℚ) (T : AmbulanceType) :
    (∀ c ∈ getCandidates hav fleet lat lng (some T),
       TYPE_HIERARCHY T ≤ TYPE_HIERARCHY c.type) ∧
    (∀ a ∈ fleet, a.status = .IDLE →
       ∃ c ∈ getCandidates hav fleet lat lng none,
         c.id = a.id ∧ c.type = a.type) := by
  constructor
  · intro c hc
    unfold getCandidates at hc
    have hmem := (List.perm_insertionSort candEtaLe _).subset hc
    simp only [List.mem_map, filterByCapability, List.mem_filter,
      decide_eq_true_eq] at hmem
    obtain ⟨a, ⟨_, ha⟩, rfl⟩ := hmem
    simpa [toCandidate] using ha
  · intro a ha hidle
    refine ⟨toCandidate hav ⟨lat, lng⟩ a, ?_, rfl, rfl⟩
    unfold getCandidates
    refine (List.perm_insertionSort candEtaLe _).mem_iff.mpr ?_
    simp only [filterByCapability, List.mem_map, List.mem_filter,
      decide_eq_true_eq]
    exact ⟨a, ⟨ha, hidle⟩, rfl⟩

/-- C2 (witness): on the concrete tie fixture, the first returned
    candidate for required tier BLS is at or above BLS, and the second
    IDLE ambulance appears among the unrestricted candidates. -/
theorem getCandidates_capability_floor_witness :
    TYPE_HIERARCHY .BLS ≤ TYPE_HIERARCHY cTie1.type ∧
    (∃ c ∈ getCandidates havTie fleetTie 0 0 none,
       c.id = (⟨2, "A2", .BLS, .IDLE, 2, 0, 1⟩ : Ambulance).id ∧
         c.type = (⟨2, "A2", .BLS, .IDLE, 2, 0, 1⟩ : Ambulance).type) := by
  obtain ⟨h1, h2⟩ := getCandidates_capability_floor havTie fleetTie 0 0 .BLS
  constructor
  · exact h1 cTie1 (by rw [getCandidates_tie_eval_BLS]; simp)
  · exact h2 ⟨2, "A2", .BLS, .IDLE, 2, 0, 1⟩ (by simp [fleetTie]) rfl

theorem validHospitalsFor_ne_nil (hospitals : List Hospital)
    (caps : List String) (hne : hospitals ≠ []) :
    validHospitalsFor hospitals caps ≠ [] := by
  unfold validHospitalsFor
  split
  · dsimp only
    split
    · exact hne
    · next hf => exact fun h => hf (by simp [h])
  · exact hne

theorem validHospitalsFor_fallback (hospitals : List Hospital)
    (caps : List String) (hcne : caps ≠ [])
    (hfe : hospitals.filter (fun h =>
      hasRequiredCapabilities h.capabilities caps) = []) :
    validHospitalsFor hospitals caps = hospitals := by
  unfold validHospitalsFor
  simp [List.length_pos.mpr hcne, hfe]

/-- C3: `findBestHospital` returns a hospital whenever the hospital set is
    non-empty; with empty hospital set it returns none; and when the
    required-capability set is non-empty but no hospital's capabilities
    intersect it, selection ranks the full unfiltered hospital set. -/
theorem findBestHospital_total_with_fallback
    (hav : Coordinates → Coordinates → ℚ) (hospitals : List Hospital)
    (lat lng : ℚ) (sev : Severity) (reqT : Option AmbulanceType)
    (tri : Option String) :
    (hospitals ≠ [] →
      (findBestHospital hav hospitals lat lng sev reqT tri).isSome = true) ∧
    (findBestHospital hav [] lat lng sev reqT tri = none) ∧
    (getRequiredCapabilities sev reqT tri ≠ [] →
     hospitals.filter (fun h => hasRequiredCapabilities h.capabilities
       (getRequiredCapabilities sev reqT tri)) = [] →
     findBestHospital hav hospitals lat lng sev reqT tri =
       (List.insertionSort hospDistLe
         (hospitals.map (toHospitalResult hav ⟨lat, lng⟩))).head?) := by
  refine ⟨?_, by simp [findBestHospital], ?_⟩
  · intro hne
    unfold findBestHospital
    simp only [List.isEmpty_iff, hne, if_false]
    have hvne := validHospitalsFor_ne_nil hospitals
      (getRequiredCapabilities sev reqT tri) hne
    have hlne : (validHospitalsFor hospitals
        (getRequiredCapabilities sev reqT tri)).map
        (toHospitalResult hav ⟨lat, lng⟩) ≠ [] := by
      simpa using hvne
    have hsne : List.insertionSort hospDistLe
        ((validHospitalsFor hospitals
          (getRequiredCapabilities sev reqT tri)).map
          (toHospitalResult hav ⟨lat, lng⟩)) ≠ [] := by
      intro h
      apply hlne
      have := (List.perm_insertionSort hospDistLe
        ((validHospitalsFor hospitals
          (getRequiredCapabilities sev reqT tri)).map
          (toHospitalResult hav ⟨lat, lng⟩))).length_eq
      rw [h] at this
      exact List.eq_nil_of_length_eq_zero this.symm
    rcases hl : List.insertionSort hospDistLe
        ((validHospitalsFor hospitals
          (getRequiredCapabilities sev reqT tri)).map
          (toHospitalResult hav ⟨lat, lng⟩)) with _ | ⟨x, xs⟩
    · exact absurd hl hsne
    · simp [hl]
  · intro hcne hfempty
    rcases hh : hospitals with _ | ⟨h0, hs⟩
    · simp [findBestHospital]
    · rw [← hh]
      have hne : hospitals ≠ [] := by rw [hh]; exact List.cons_ne_nil _ _
      unfold findBestHospital
      simp only [List.isEmpty_iff, hne, if_false]
      rw [validHospitalsFor_fallback hospitals _ hcne hfempty]

/-- C3 (witness): on a one-hospital set whose capabilities match nothing,
    a HIGH-severity STEMI incident still gets a hospital, the empty set
    gives none, and the result equals the ranking of the full set. -/
theorem findBestHospital_total_with_fallback_witness :
    (findBestHospital havZero hospNoCaps 0 0 .HIGH none
      (some "STEMI")).isSome = true ∧
    findBestHospital havZero [] 0 0 .HIGH none (some "STEMI") = none ∧
    findBestHospital havZero hospNoCaps 0 0 .HIGH none (some "STEMI") =
      (List.insertionSort hospDistLe
        (hospNoCaps.map (toHospitalResult havZero ⟨0, 0⟩))).head? := by
  obtain ⟨h1, h2, h3⟩ := findBestHospital_total_with_fallback havZero
    hospNoCaps 0 0 .HIGH none (some "STEMI")
  exact ⟨h1 (by decide), h2, h3 (by decide) (by decide)⟩

/-- C4: the required-capability set equals the union of the triage
    mapping, included only when severity is HIGH, and the tier mapping for
    ALS/CCT, with BLS/RRV contributing nothing. -/
theorem getRequiredCapabilities_eq_union (sev : Severity)
    (reqT : Option AmbulanceType) (tri : Option String) (cap : String) :
    cap ∈ getRequiredCapabilities sev reqT tri ↔
      ((sev = .HIGH ∧ ∃ t, tri = some t ∧ cap ∈ claimTriageCaps t) ∨
       (∃ t, reqT = some t ∧ cap ∈ claimTierCaps t)) := by
  have hagree : ∀ t, claimTriageCaps t = TRIAGE_CAPABILITY_MAP t :=
    fun t => rfl
  unfold getRequiredCapabilities
  rw [List.mem_dedup, List.mem_append]
  constructor
  · rintro (h | h)
    · left
      rcases sev with _ | _
      · rcases tri with _ | t
        · simp at h
        · exact ⟨rfl, t, rfl, by rw [hagree]; simpa using h⟩
      · simp at h
    · right
      rcases reqT with _ | t
      · simp at h
      · refine ⟨t, rfl, ?_⟩
        rcases t with _ | _ | _ | _ <;>
          simp_all [claimTierCaps, AMBULANCE_TYPE_CAPABILITY_MAP]
  · rintro (⟨hsev, t, htri, hmem⟩ | ⟨t, hreq, hmem⟩)
    · left
      subst hsev htri
      rw [hagree] at hmem
      simpa using hmem
    · right
      subst hreq
      rcases t with _ | _ | _ | _ <;>
        simp_all [claimTierCaps, AMBULANCE_TYPE_CAPABILITY_MAP]

theorem rat_sum_zero_all_zero : ∀ (l : List ℚ), (∀ x ∈ l, 0 ≤ x) →
    l.sum = 0 → ∀ x ∈ l, x = 0 := by
  intro l
  induction l with
  | nil => simp
  | cons a tl ih =>
      intro hnn hsum x hx
      have hta : 0 ≤ a := hnn a (List.mem_cons_self a tl)
      have htl : 0 ≤ tl.sum := List.sum_nonneg (fun y hy =>
        hnn y (List.mem_cons_of_mem a hy))
      rw [List.sum_cons] at hsum
      have ha0 : a = 0 := by linarith
      have hs0 : tl.sum = 0 := by linarith
      rcases List.mem_cons.mp hx with rfl | hx
      · exact ha0
      · exact ih (fun y hy => hnn y (List.mem_cons_of_mem a hy)) hs0 x hx

theorem segmentsWith_fst_nonneg (hav4 : ℚ → ℚ → ℚ → ℚ → ℚ)
    (hnn : ∀ a b c d, 0 ≤ hav4 a b c d) :
    ∀ (l : List (ℚ × ℚ)) s, s ∈ segmentsWith hav4 l → 0 ≤ s.1 := by
  intro l
  induction l with
  | nil => simp [segmentsWith]
  | cons a tl ih =>
      cases tl with
      | nil => simp [segmentsWith]
      | cons b bs =>
          intro s hs
          rw [segmentsWith] at hs
          rcases List.mem_cons.mp hs with rfl | hs
          · exact hnn _ _ _ _
          · exact ih s hs

theorem getLast_eq_head_of_segments_zero (hav4 : ℚ → ℚ → ℚ → ℚ → ℚ)
    (hdef : ∀ a b c d, hav4 a b c d = 0 → a = c ∧ b = d) :
    ∀ (cs : List (ℚ × ℚ)) (c : ℚ × ℚ),
      (∀ s ∈ segmentsWith hav4 (c :: cs), s.1 = 0) →
      (c :: cs).getLast (List.cons_ne_nil _ _) = c := by
  intro cs
  induction cs with
  | nil => intro c _; rfl
  | cons b bs ih =>
      intro c hz
      have hseg : hav4 c.2 c.1 b.2 b.1 = 0 := by
        have := hz (hav4 c.2 c.1 b.2 b.1, c, b)
        rw [segmentsWith] at this
        exact this (List.mem_cons_self _ _)
      have hcb : b = c := by
        obtain ⟨h2, h1⟩ := hdef _ _ _ _ hseg
        exact Prod.ext h1.symm h2.symm
      have hrest : ∀ s ∈ segmentsWith hav4 (b :: bs), s.1 = 0 := by
        intro s hs
        apply hz
        rw [segmentsWith]
        exact List.mem_cons_of_mem _ hs
      rw [List.getLast_cons (List.cons_ne_nil _ _)]
      rw [ih b hrest, hcb]

/-- C5: for every nonnegative, definite distance function,
    `getPositionAlongPolyline` returns the first point exactly at
    progress 0, the last point exactly at progress ≥ 1 on paths of length
    at least 2, the sole point of a single-point path at every progress,
    and an error (none) on the empty path. -/
theorem getPositionAlongPolyline_boundary (hav4 : ℚ → ℚ → ℚ → ℚ → ℚ)
    (hnn : ∀ a b c d, 0 ≤ hav4 a b c d)
    (hdef : ∀ a b c d, hav4 a b c d = 0 → a = c ∧ b = d) :
    (∀ (c : ℚ × ℚ) (cs : List (ℚ × ℚ)),
       getPositionAlongPolyline hav4 (c :: cs) 0 =
         some { lng := c.1, lat := c.2 }) ∧
    (∀ (coords : List (ℚ × ℚ)) (p : ℚ) (h : coords ≠ []),
       2 ≤ coords.length → 1 ≤ p →
       getPositionAlongPolyline hav4 coords p =
         some { lng := (coords.getLast h).1, lat := (coords.getLast h).2 }) ∧
    (∀ (c : ℚ × ℚ) (p : ℚ),
       getPositionAlongPolyline hav4 [c] p =
         some { lng := c.1, lat := c.2 }) ∧
    (∀ p : ℚ, getPositionAlongPolyline hav4 [] p = none) := by
  have hc0 : clamp01 0 = 0 := by
    unfold clamp01
    norm_num
  refine ⟨?_, ?_, ?_, fun p => rfl⟩
  · intro c cs
    cases cs with
    | nil => simp [getPositionAlongPolyline]
    | cons b bs =>
        unfold getPositionAlongPolyline
        simp only [hc0, List.isEmpty_cons, if_false]
        simp
  · intro coords p h h2 hp
    have hc1 : clamp01 p = 1 := by
      unfold clamp01
      rw [min_eq_left hp, max_eq_right]
      norm_num
    match coords, h with
    | c :: cs, _ =>
      cases cs with
      | nil => simp at h2
      | cons b bs =>
          unfold getPositionAlongPolyline
          simp only [hc1, List.isEmpty_cons]
          by_cases htot : ((segmentsWith hav4 (c :: b :: bs)).map
              (fun s => s.1)).sum = 0
          · have hzero : ∀ s ∈ segmentsWith hav4 (c :: b :: bs),
                s.1 = 0 := by
              intro s hs
              have := rat_sum_zero_all_zero
                ((segmentsWith hav4 (c :: b :: bs)).map (fun s => s.1))
                (by
                  intro x hx
                  obtain ⟨s, hs', rfl⟩ := List.mem_map.mp hx
                  exact segmentsWith_fst_nonneg hav4 hnn _ s hs')
                htot s.1 (List.mem_map.mpr ⟨s, hs, rfl⟩)
              exact this
            have hfl := getLast_eq_head_of_segments_zero hav4 hdef
              (b :: bs) c hzero
            simp only [htot, true_or, if_true]
            rw [hfl]
            simp
          · simp only [htot, false_or]
            have h10 : ¬ ((1 : ℚ) = 0) := by norm_num
            simp only [h10, if_false, le_refl, if_true]
            simp
  · intro c p
    simp [getPositionAlongPolyline]

/-- C5 (witness): with a concrete definite distance function on the
    two-point path [(0,0), (3,4)], progress 0 gives the first point,
    progress 2 gives the last point exactly, a one-point path gives its
    point, and the empty path gives none. -/
theorem getPositionAlongPolyline_boundary_witness :
    getPositionAlongPolyline havAbs [(0, 0), (3, 4)] 0 =
      some { lng := 0, lat := 0 } ∧
    getPositionAlongPolyline havAbs [(0, 0), (3, 4)] 2 =
      some { lng := 3, lat := 4 } ∧
    getPositionAlongPolyline havAbs [(5, 6)] 7 =
      some { lng := 5, lat := 6 } ∧
    getPositionAlongPolyline havAbs [] 9 = none := by
  have hnn : ∀ a b c d : ℚ, 0 ≤ havAbs a b c d := fun a b c d =>
    add_nonneg (abs_nonneg _) (abs_nonneg _)
  have hdef : ∀ a b c d : ℚ, havAbs a b c d = 0 → a = c ∧ b = d := by
    intro a b c d h
    unfold havAbs at h
    have ha := abs_nonneg (a - c)
    have hb := abs_nonneg (b - d)
    have h1 : |a - c| = 0 := by linarith
    have h2 : |b - d| = 0 := by linarith
    exact ⟨sub_eq_zero.mp (abs_eq_zero.mp h1),
      sub_eq_zero.mp (abs_eq_zero.mp h2)⟩
  obtain ⟨h0, h1, hs, he⟩ := getPositionAlongPolyline_boundary havAbs hnn hdef
  refine ⟨h0 (0, 0) [(3, 4)], ?_, hs (5, 6) 7, he 9⟩
  have := h1 [(0, 0), (3, 4)] 2 (by simp) (by simp) (by norm_num)
  simpa using this

/-- C6: `applyHazardPenalties` returns the route with `etaSeconds`
    increased by exactly 600 seconds per active hazard whose bounding
    rectangle contains at least one coordinate of the route geometry
    (so zero affecting hazards add zero), leaving the geometry and
    distance fields unchanged. -/
theorem applyHazardPenalties_adds_fixed_penalty (hazards : List Hazard)
    (route : RouteResult) :
    (applyHazardPenalties hazards route).etaSeconds =
      route.etaSeconds + 600 *
        ((hazards.filter (fun hz => hz.active &&
           route.geometry.any (fun c =>
             isPointInBounds c.2 c.1 hz.bounds))).length : ℤ) ∧
    (applyHazardPenalties hazards route).geometry = route.geometry ∧
    (applyHazardPenalties hazards route).distanceMeters =
      route.distanceMeters ∧
    (applyHazardPenalties hazards route).hazardPenalty =
      600 * ((hazards.filter (fun hz => hz.active &&
        route.geometry.any (fun c =>
          isPointInBounds c.2 c.1 hz.bounds))).length : ℤ) := by
  have hcount : ((getActiveHazards hazards).filter (fun hz =>
      routeIntersectsBounds route.geometry hz.bounds)).length =
      (hazards.filter (fun hz => hz.active &&
        route.geometry.any (fun c =>
          isPointInBounds c.2 c.1 hz.bounds))).length := by
    unfold getActiveHazards routeIntersectsBounds
    rw [List.filter_filter]
    congr 1
    apply List.filter_congr
    intro hz _
    rw [Bool.and_comm]
  unfold applyHazardPenalties checkRouteHazards HAZARD_PENALTY_SECONDS
  refine ⟨?_, rfl, rfl, ?_⟩ <;>
    simp only [hcount] <;> ring

theorem countKey_zero_of_lookup_none (m : List (String × ActiveSimulation))
    (k : String) (h : mapLookup m k = none) : countKey m k = 0 := by
  unfold mapLookup at h
  unfold countKey
  rw [Option.map_eq_none'] at h
  rw [List.length_eq_zero, List.filter_eq_nil_iff]
  intro e he
  have := List.find?_eq_none.mp h e he
  simpa using this

theorem countKey_append_single (m : List (String × ActiveSimulation))
    (k : String) (v : ActiveSimulation) :
    countKey (m ++ [(k, v)]) k = countKey m k + 1 := by
  unfold countKey
  rw [List.filter_append]
  simp

theorem countKey_mapUpdate (m : List (String × ActiveSimulation))
    (k : String) (v : ActiveSimulation) :
    countKey (mapUpdate m k v) k = countKey m k := by
  unfold countKey mapUpdate
  induction m with
  | nil => rfl
  | cons e es ih =>
      by_cases he : e.1 = k
      · simp only [List.map_cons, he, if_true, List.filter_cons]
        simp only [decide_True, he]
        simpa using ih
      · simp only [List.map_cons, he, if_false, List.filter_cons]
        simp only [he, decide_False]
        simpa using ih

theorem lookup_isSome_of_countKey_pos (m : List (String × ActiveSimulation))
    (k : String) (h : 0 < countKey m k) :
    (mapLookup m k).isSome = true := by
  unfold countKey at h
  unfold mapLookup
  rw [Option.isSome_map']
  rw [List.find?_isSome]
  have hne : (m.filter (fun e => decide (e.1 = k))) ≠ [] := by
    intro hnil
    rw [hnil] at h
    simp at h
  rcases hx : m.filter (fun e => decide (e.1 = k)) with _ | ⟨x, xs⟩
  · exact absurd hx hne
  · have hxm : x ∈ m.filter (fun e => decide (e.1 = k)) := by
      rw [hx]; exact List.mem_cons_self _ _
    have := List.mem_filter.mp hxm
    exact ⟨x, this.1, this.2⟩

/-- C7: starting a lifecycle for an incident id already in the active map
    returns at once with the state unchanged and no events (no store
    write, no broadcast, no timer), so a first start followed by a second
    start for the same incident leaves exactly one active simulation for
    that id. -/
theorem startLifecycle_idempotent
    (hav1 hav2 : Coordinates → Coordinates → ℚ)
    (f1 f2 : Option RouteResult) (st st' : SimState)
    (config : SimulationConfig)
    (habsent : mapLookup st.activeSimulations config.incidentId = none)
    (hpresent : (mapLookup st'.activeSimulations
      config.incidentId).isSome = true) :
    startLifecycle hav2 f2 st' config = (st', []) ∧
    startLifecycle hav2 f2 (startLifecycle hav1 f1 st config).1 config =
      ((startLifecycle hav1 f1 st config).1, []) ∧
    countKey (startLifecycle hav1 f1 st config).1.activeSimulations
      config.incidentId = 1 := by
  have noop : ∀ s : SimState,
      (mapLookup s.activeSimulations config.incidentId).isSome = true →
      startLifecycle hav2 f2 s config = (s, []) := by
    intro s hs
    rw [Option.isSome_iff_exists] at hs
    obtain ⟨sim, hsim⟩ := hs
    unfold startLifecycle
    rw [hsim]
  have hfirst : countKey (startLifecycle hav1 f1 st
      config).1.activeSimulations config.incidentId = 1 := by
    unfold startLifecycle
    rw [habsent]
    simp only [startOutboundPhase]
    rw [countKey_mapUpdate, countKey_append_single,
      countKey_zero_of_lookup_none _ _ habsent]
  refine ⟨noop st' hpresent, ?_, hfirst⟩
  exact noop _ (lookup_isSome_of_countKey_pos _ _ (by rw [hfirst]; norm_num))

/-- C7 (witness): on concrete states, a start against an already-active
    "inc1" is a no-op, and a double start from the empty state leaves one
    active simulation. -/
theorem startLifecycle_idempotent_witness :
    startLifecycle havZero none stActiveW configW = (stActiveW, []) ∧
    startLifecycle havZero none
      (startLifecycle havZero none stEmptyW configW).1 configW =
      ((startLifecycle havZero none stEmptyW configW).1, []) ∧
    countKey (startLifecycle havZero none stEmptyW
      configW).1.activeSimulations configW.incidentId = 1 :=
  startLifecycle_idempotent havZero havZero none none stEmptyW
    stActiveW configW rfl rfl

theorem mapLookup_mapDelete_self (m : List (String × ActiveSimulation))
    (k : String) : mapLookup (mapDelete m k) k = none := by
  unfold mapLookup mapDelete
  rw [Option.map_eq_none', List.find?_eq_none]
  intro e he
  have := (List.mem_filter.mp he).2
  simpa using this

theorem updateAmbulanceStatus_preserves_positions (l : List Ambulance)
    (t : Nat) (s : AmbulanceStatus) :
    (updateAmbulanceStatus l t s).map
      (fun a => (a.id, a.currentLat, a.currentLng)) =
      l.map (fun a => (a.id, a.currentLat, a.currentLng)) := by
  unfold updateAmbulanceStatus
  rw [List.map_map]
  apply List.map_congr_left
  intro a _
  by_cases h : a.id = t <;> simp [h]

theorem updateAmbulanceStatus_sets_status (l : List Ambulance) (t : Nat)
    (s : AmbulanceStatus) :
    ∀ a ∈ updateAmbulanceStatus l t s, a.id = t → a.status = s := by
  intro a ha hid
  unfold updateAmbulanceStatus at ha
  obtain ⟨orig, _, rfl⟩ := List.mem_map.mp ha
  by_cases h : orig.id = t <;> simp_all

/-- C8: cancelling an unknown incident id returns false and changes
    nothing; cancelling an active one returns true, removes the state from
    the map, resets the bound ambulance's status to IDLE while leaving
    every ambulance's position unchanged, emits the cancellation event,
    and clears the running timer. -/
theorem cancelSimulation_spec (st : SimState) (incidentId : String) :
    (mapLookup st.activeSimulations incidentId = none →
      cancelSimulation st incidentId = (st, false, [])) ∧
    (∀ sim, mapLookup st.activeSimulations incidentId = some sim →
      (cancelSimulation st incidentId).2.1 = true ∧
      mapLookup (cancelSimulation st incidentId).1.activeSimulations
        incidentId = none ∧
      (cancelSimulation st incidentId).1.ambulances =
        updateAmbulanceStatus st.ambulances sim.config.ambulanceId .IDLE ∧
      (cancelSimulation st incidentId).1.ambulances.map
        (fun a => (a.id, a.currentLat, a.currentLng)) =
        st.ambulances.map (fun a => (a.id, a.currentLat, a.currentLng)) ∧
      (∀ a ∈ (cancelSimulation st incidentId).1.ambulances,
         a.id = sim.config.ambulanceId → a.status = .IDLE) ∧
      SimEvent.simulationCancelled incidentId sim.config.ambulanceId ∈
        (cancelSimulation st incidentId).2.2 ∧
      (sim.timerRunning = true →
        SimEvent.timerCleared incidentId ∈
          (cancelSimulation st incidentId).2.2)) := by
  constructor
  · intro hnone
    unfold cancelSimulation
    rw [hnone]
  · intro sim hsim
    unfold cancelSimulation
    rw [hsim]
    refine ⟨rfl, mapLookup_mapDelete_self _ _, rfl,
      updateAmbulanceStatus_preserves_positions _ _ _,
      updateAmbulanceStatus_sets_status _ _ _, ?_, ?_⟩
    · simp
    · intro ht
      simp [ht]

/-- C8 (witness): cancelling the concrete active "inc1" returns true,
    empties the map, idles ambulance 7 in place, emits the cancellation
    event and clears the timer. -/
theorem cancelSimulation_spec_witness :
    (cancelSimulation stActiveW "inc1").2.1 = true ∧
    mapLookup (cancelSimulation stActiveW "inc1").1.activeSimulations
      "inc1" = none ∧
    (cancelSimulation stActiveW "inc1").1.ambulances =
      updateAmbulanceStatus stActiveW.ambulances simW.config.ambulanceId
        .IDLE ∧
    (cancelSimulation stActiveW "inc1").1.ambulances.map
      (fun a => (a.id, a.currentLat, a.currentLng)) =
      stActiveW.ambulances.map
        (fun a => (a.id, a.currentLat, a.currentLng)) ∧
    (∀ a ∈ (cancelSimulation stActiveW "inc1").1.ambulances,
       a.id = simW.config.ambulanceId → a.status = .IDLE) ∧
    SimEvent.simulationCancelled "inc1" simW.config.ambulanceId ∈
      (cancelSimulation stActiveW "inc1").2.2 ∧
    (simW.timerRunning = true →
      SimEvent.timerCleared "inc1" ∈
        (cancelSimulation stActiveW "inc1").2.2) :=
  (cancelSimulation_spec stActiveW "inc1").2 simW rfl

/-- C9: the outbound tick callback performs its ambulance write without
    any liveness check against the active-simulation registry — evaluated
    here at the failing input: after "inc1" is cancelled the registry is
    empty, yet a tick already in flight with the captured simulation
    object still moves ambulance 7 from (5,5) to the route position and
    broadcasts, contradicting the claimed registry guard. -/
theorem outboundTick_writes_after_cancel :
    stActiveW.activeSimulations ≠ [] ∧
    (cancelSimulation stActiveW "inc1").1.activeSimulations = [] ∧
    outboundTick havAbs (cancelSimulation stActiveW "inc1").1 simW 0 1 =
      some
        ({ activeSimulations := []
           ambulances := [⟨7, "A7", .BLS, .IDLE, 0, 1, 1⟩] },
         [SimEvent.ambulanceUpdate 7 0 1 "EN_ROUTE" .OUTBOUND],
         true) := by
  refine ⟨by simp [stActiveW],
    by simp [cancelSimulation, stActiveW, mapLookup, simW, mapDelete], ?_⟩
  norm_num [outboundTick, cancelSimulation, stActiveW, mapLookup, mapDelete,
    simW, configW, ambW, updateAmbulanceStatus, updateAmbulancePosition,
    getPositionAlongPolyline, clamp01, segmentsWith, walkSegments, havAbs]

/-- C10: `getRoutingProvider` memoizes the first-constructed provider in
    the module-level cell and thereafter returns it ignoring the requested
    type, so after a first default ("tomtom") call a later request for
    "google" — as the simulator makes — receives the TomTom adapter, until
    `resetRoutingProvider` clears the cell. -/
theorem getRoutingProvider_memoizes :
    (∀ (p : ProviderInstance) (t : RoutingProviderType),
       getRoutingProvider (some p) t = (p, some p)) ∧
    (∀ t : RoutingProviderType,
       getRoutingProvider none t =
         (constructProvider t, some (constructProvider t))) ∧
    (getRoutingProvider
        (getRoutingProvider none defaultProviderChoice).2 .google).1 =
      .TomTomRoutingAdapter ∧
    (getRoutingProvider
        (getRoutingProvider none defaultProviderChoice).2 .google).1 ≠
      constructProvider .google ∧
    (∀ c : Option ProviderInstance, resetRoutingProvider c = none) := by
  exact ⟨fun p t => rfl, fun t => rfl, rfl, by decide, fun c => rfl⟩

end MySafeRoute
